import Mathlib

/-!
Shallow embedding of the client-side state synchronization logic of the
Smart-Bookmark-App (src/app/page.js).

The page keeps React state: `user` (the Identity, or absent), `bookmarks`
(the Snapshot, a list of records), and the form inputs `title`/`url`.
The embedding models each handler as a pure function from the relevant
state plus the outcome of its remote round-trip to the new state, and the
event loop as a left fold of events over the Snapshot.
-/

namespace SmartBookmark

/-- One bookmark row as stored in the `bookmarks` table and held in the
`bookmarks` React state (fields as in src/app/page.js). -/
structure Record where
  id : Nat
  title : String
  url : String
  user_id : Nat
  created_at : Nat
deriving DecidableEq, Repr

/-- An error object from the backend client (only `message` is used). -/
structure SupabaseError where
  message : String
deriving DecidableEq, Repr

/-- The authenticated user as exposed by the auth session (only `id` and
`email` are read by the page). -/
structure Identity where
  id : Nat
  email : String
deriving DecidableEq, Repr

/-- Response of the `select * order by created_at desc` query: either an
error, or data that may be null (the code applies `data ?? []`). -/
inductive FetchResult where
  | failure (e : SupabaseError)
  | success (data : Option (List Record))
deriving DecidableEq, Repr

/-- Embedding of `fetchBookmarks` (src/app/page.js lines 17-28) applied at
the moment its awaited response `resp` arrives, acting on the Snapshot
`snap` current at that moment. On error it logs the message and returns,
leaving the Snapshot untouched; on success it replaces the Snapshot with
`data ?? []`. The second component is the error reported to the console,
if any. There is no generation counter: whatever response arrives is
applied as-is. -/
def fetchBookmarks (snap : List Record) (resp : FetchResult) :
    List Record × Option SupabaseError :=
  match resp with
  | .failure e => (snap, some e)
  | .success d => (d.getD [], none)

/-- Realtime INSERT payload (`payload.new` carries the full new row); the
INSERT handler of the code ignores it entirely. -/
structure InsertPayload where
  newRecord : Record
deriving DecidableEq, Repr

/-- Realtime DELETE payload: `payload.old` carries only the id of the
deleted row (documented backend constraint). -/
structure DeletePayload where
  oldId : Nat
deriving DecidableEq, Repr

/-- Embedding of the INSERT postgres_changes handler
(src/app/page.js lines 57-61): `() => fetchBookmarks()`. The payload is
discarded and the Snapshot is replaced by the result of a fresh query,
whose response is `resp`. -/
def onInsertEvent (_payload : InsertPayload) (snap : List Record)
    (resp : FetchResult) : List Record :=
  (fetchBookmarks snap resp).1

/-- Embedding of the DELETE postgres_changes handler
(src/app/page.js lines 62-68):
`setBookmarks((prev) => prev.filter((b) => b.id !== payload.old.id))`. -/
def onDeleteEvent (snap : List Record) (payload : DeletePayload) :
    List Record :=
  snap.filter (fun b => b.id != payload.oldId)

/-- Outcome of the remote delete round-trip keyed by id. -/
inductive DeleteOutcome where
  | failure (e : SupabaseError)
  | success
deriving DecidableEq, Repr

/-- Observable actions of `handleDelete`, in program order. -/
inductive Action where
  | localRemove (id : Nat)
  | remoteDelete (id : Nat)
  | refreshCall
deriving DecidableEq, Repr

/-- Embedding of `handleDelete` (src/app/page.js lines 103-116): it first
removes the row from the Snapshot (`setBookmarks(prev => prev.filter ...)`,
before the await), then issues the remote delete; if that fails it logs
and calls `fetchBookmarks()`, whose response is `refreshResp`. Returns the
final Snapshot and the trace of actions in the order the code performs
them. -/
def handleDelete (snap : List Record) (id : Nat) (outcome : DeleteOutcome)
    (refreshResp : FetchResult) : List Record × List Action :=
  let optimistic := snap.filter (fun b => b.id != id)
  match outcome with
  | .success => (optimistic, [.localRemove id, .remoteDelete id])
  | .failure _ =>
      ((fetchBookmarks optimistic refreshResp).1,
       [.localRemove id, .remoteDelete id, .refreshCall])

/-- JS `String.prototype.trim`, modelled on the character sequence of the
string: strip leading and trailing whitespace. -/
def jsTrim (s : String) : String :=
  ⟨((s.data.dropWhile Char.isWhitespace).reverse.dropWhile
      Char.isWhitespace).reverse⟩

/-- The two controlled form inputs (`title` and `url` React state). -/
structure FormState where
  title : String
  url : String
deriving DecidableEq, Repr

/-- Outcome of the remote `insert(...)` round-trip. -/
inductive InsertOutcome where
  | failure (e : SupabaseError)
  | success
deriving DecidableEq, Repr

/-- The row sent to `insert` by `handleAddBookmark`. -/
structure InsertRequest where
  title : String
  url : String
  user_id : Nat
deriving DecidableEq, Repr

/-- Embedding of `handleAddBookmark` (src/app/page.js lines 87-101). The
handler is reachable only from the signed-in view (the form is rendered
only when `user` is non-null), so `user` is a present Identity here. If
either trimmed input is empty it returns without issuing anything;
otherwise it issues an insert of the trimmed title, trimmed url and
`user.id`. On failure it logs and returns (inputs untouched); on success
it clears both inputs. It never touches the `bookmarks` state, which is
threaded through unchanged. Returns (form inputs, issued request if any,
reported error if any, Snapshot). -/
def handleAddBookmark (user : Identity) (form : FormState)
    (outcome : InsertOutcome) (snap : List Record) :
    FormState × Option InsertRequest × Option SupabaseError × List Record :=
  if jsTrim form.title == "" || jsTrim form.url == "" then
    (form, none, none, snap)
  else
    let req : InsertRequest := ⟨jsTrim form.title, jsTrim form.url, user.id⟩
    match outcome with
    | .failure e => (form, some req, some e, snap)
    | .success => (⟨"", ""⟩, some req, none, snap)

/-- Events processed by the single-threaded event loop, in the order their
continuations run: an auth-state change re-running the data effect
(src/app/page.js lines 47-53: absent user clears the Snapshot), the
resolution of an in-flight `fetchBookmarks` call, a realtime INSERT event
together with the response of the query it triggers, and a realtime
DELETE event. -/
inductive SyncEvent where
  | authChange (user : Option Identity)
  | refreshResolved (resp : FetchResult)
  | insertEvent (payload : InsertPayload) (resp : FetchResult)
  | deleteEvent (payload : DeletePayload)
deriving DecidableEq, Repr

/-- One step of the event loop acting on the Snapshot. -/
def syncStep (snap : List Record) : SyncEvent → List Record
  | .authChange none => []
  | .authChange (some _) => snap
  | .refreshResolved resp => (fetchBookmarks snap resp).1
  | .insertEvent payload resp => onInsertEvent payload snap resp
  | .deleteEvent payload => onDeleteEvent snap payload

/-- Folding a sequence of events over the Snapshot, in the order the
continuations run on the event loop. -/
def runSync (snap : List Record) (evs : List SyncEvent) : List Record :=
  evs.foldl syncStep snap

/-- The Snapshot invariant from the spec: no two records share an `id`,
and the sequence is sorted by `created_at` descending. -/
def Inv (s : List Record) : Prop :=
  (s.map Record.id).Nodup ∧
    s.Pairwise (fun a b => b.created_at ≤ a.created_at)

instance (s : List Record) : Decidable (Inv s) :=
  inferInstanceAs (Decidable (_ ∧ _))

/-- Following the words of the spec (section 4.2), for comparison with the
INSERT handler of the code: insert a record into a list sorted by
`created_at` descending, preserving that order. -/
def insertDesc (r : Record) : List Record → List Record
  | [] => [r]
  | b :: rest =>
      if b.created_at ≤ r.created_at then r :: b :: rest
      else b :: insertDesc r rest

/-- Following the words of the spec (section 4.2), for comparison with the
INSERT handler of the code: `applyCreated(record)` as the spec states it,
an idempotent insert — no-op when the id is already present, otherwise an
insert preserving descending `created_at` order. -/
def applyCreatedSpec (r : Record) (snap : List Record) : List Record :=
  if snap.any (fun b => b.id == r.id) then snap else insertDesc r snap

/-- Backend guarantee attached to an event: any data carried by a query
response satisfies the Snapshot invariant (ids are primary keys, and the
query orders by `created_at` descending). Events without a query response
carry no obligation. -/
def respOk : SyncEvent → Prop
  | .refreshResolved (.success d) => Inv (d.getD [])
  | .insertEvent _ (.success d) => Inv (d.getD [])
  | _ => True

instance : DecidablePred respOk := fun e =>
  match e with
  | .refreshResolved (.success d) => inferInstanceAs (Decidable (Inv (d.getD [])))
  | .refreshResolved (.failure _) => inferInstanceAs (Decidable True)
  | .insertEvent _ (.success d) => inferInstanceAs (Decidable (Inv (d.getD [])))
  | .insertEvent _ (.failure _) => inferInstanceAs (Decidable True)
  | .authChange _ => inferInstanceAs (Decidable True)
  | .deleteEvent _ => inferInstanceAs (Decidable True)

theorem inv_nil : Inv [] := by constructor <;> simp

theorem inv_filter (snap : List Record) (p : Record → Bool) (h : Inv snap) :
    Inv (snap.filter p) := by
  obtain ⟨h1, h2⟩ := h
  refine ⟨?_, h2.sublist (List.filter_sublist snap)⟩
  exact h1.sublist ((List.filter_sublist snap).map Record.id)

theorem inv_syncStep (snap : List Record) (e : SyncEvent)
    (h : Inv snap) (he : respOk e) : Inv (syncStep snap e) := by
  cases e with
  | authChange u => cases u with
    | none => exact inv_nil
    | some _ => exact h
  | refreshResolved resp => cases resp with
    | failure _ => exact h
    | success d => exact he
  | insertEvent payload resp => cases resp with
    | failure _ => exact h
    | success d => exact he
  | deleteEvent payload => exact inv_filter snap _ h

theorem inv_runSync (evs : List SyncEvent) (snap : List Record)
    (h : Inv snap) (hevs : ∀ e ∈ evs, respOk e) : Inv (runSync snap evs) := by
  induction evs generalizing snap with
  | nil => exact h
  | cons e rest ih =>
      exact ih (syncStep snap e)
        (inv_syncStep snap e h (hevs e (by simp)))
        (fun x hx => hevs x (by simp [hx]))

theorem insertDesc_perm (r : Record) (l : List Record) :
    (insertDesc r l).Perm (r :: l) := by
  induction l with
  | nil => exact List.Perm.refl _
  | cons b rest ih =>
      by_cases hc : b.created_at ≤ r.created_at
      · simp [insertDesc, hc]
      · simp only [insertDesc, if_neg hc]
        exact (ih.cons b).trans (List.Perm.swap r b rest)

theorem filter_id_length_eq_one (rid : Nat) (l : List Record)
    (h : (l.map Record.id).Nodup) (hm : rid ∈ l.map Record.id) :
    (l.filter (fun b => b.id == rid)).length = 1 := by
  have h1 : (l.filter (fun b => b.id == rid)).length
      = l.countP (fun b => b.id == rid) :=
    (List.countP_eq_length_filter _ _).symm
  have h2 : (l.map Record.id).countP (fun x => x == rid)
      = l.countP (fun b => b.id == rid) := by
    rw [List.countP_map]; rfl
  have h3 : (l.map Record.id).countP (fun x => x == rid)
      = (l.map Record.id).count rid := rfl
  rw [h1, ← h2, h3]
  exact List.count_eq_one_of_mem h hm

/-- C9: if a refresh query fails, the error is reported (passed to the
console) and the prior Snapshot is left exactly intact — the error branch
of `fetchBookmarks` returns before any update is applied. -/
theorem c9_fetch_error_reports_and_preserves_snapshot
    (snap : List Record) (e : SupabaseError) :
    (fetchBookmarks snap (.failure e)).1 = snap ∧
    (fetchBookmarks snap (.failure e)).2 = some e :=
  ⟨rfl, rfl⟩

/-- C10: the INSERT realtime handler ignores its payload — for any two
payloads the resulting Snapshot is identical, and it equals the result of
applying the fresh backend query response, exactly as a refresh would. -/
theorem c10_insert_fold_payload_independent (p1 p2 : InsertPayload)
    (snap : List Record) (resp : FetchResult) :
    onInsertEvent p1 snap resp = onInsertEvent p2 snap resp ∧
    onInsertEvent p1 snap resp = (fetchBookmarks snap resp).1 :=
  ⟨rfl, rfl⟩

/-- C6: `handleDelete` removes the record from the local Snapshot first
(the action trace starts with the local removal, before the remote delete
is issued); on success no further local mutation happens (the final
Snapshot is exactly the optimistic removal), and on failure a corrective
refresh is triggered and applied instead of rolling back the single
removal. -/
theorem c6_delete_optimistic_then_remote (snap : List Record) (id : Nat)
    (e : SupabaseError) (resp : FetchResult) :
    (handleDelete snap id .success resp).2
        = [.localRemove id, .remoteDelete id] ∧
    (handleDelete snap id .success resp).1
        = snap.filter (fun b => b.id != id) ∧
    (handleDelete snap id (.failure e) resp).2
        = [.localRemove id, .remoteDelete id, .refreshCall] ∧
    (handleDelete snap id (.failure e) resp).1
        = (fetchBookmarks (snap.filter (fun b => b.id != id)) resp).1 :=
  ⟨rfl, rfl, rfl, rfl⟩

/-- C5: the DELETE realtime handler, given only the id carried by the
payload, removes exactly the records bearing that id (a record survives
iff it was present and its id differs), is a no-op when the id is absent,
and applying it twice equals applying it once, the second application
leaving the Snapshot unchanged. -/
theorem c5_delete_event_idempotent_removal (snap : List Record)
    (p : DeletePayload) (r : Record) :
    (r ∈ onDeleteEvent snap p ↔ r ∈ snap ∧ r.id ≠ p.oldId) ∧
    (p.oldId ∉ snap.map Record.id → onDeleteEvent snap p = snap) ∧
    onDeleteEvent (onDeleteEvent snap p) p = onDeleteEvent snap p := by
  refine ⟨?_, ?_, ?_⟩
  · simp [onDeleteEvent]
  · intro h
    refine List.filter_eq_self.mpr (fun b hb => ?_)
    have : b.id ≠ p.oldId := fun he => h (List.mem_map.mpr ⟨b, hb, he⟩)
    simpa using this
  · simp [onDeleteEvent, List.filter_filter]

/-- C5 witness: concrete instance — deleting an absent id 2 is a no-op,
and deleting id 1 twice equals deleting it once. -/
theorem c5_witness :
    onDeleteEvent [⟨1, "A", "https://a.test", 7, 10⟩] ⟨2⟩
        = [⟨1, "A", "https://a.test", 7, 10⟩] ∧
    onDeleteEvent (onDeleteEvent [⟨1, "A", "https://a.test", 7, 10⟩] ⟨1⟩) ⟨1⟩
        = onDeleteEvent [⟨1, "A", "https://a.test", 7, 10⟩] ⟨1⟩ :=
  ⟨(c5_delete_event_idempotent_removal [⟨1, "A", "https://a.test", 7, 10⟩] ⟨2⟩
      ⟨1, "A", "https://a.test", 7, 10⟩).2.1 (by decide),
   (c5_delete_event_idempotent_removal [⟨1, "A", "https://a.test", 7, 10⟩] ⟨1⟩
      ⟨1, "A", "https://a.test", 7, 10⟩).2.2⟩

/-- C1 counterexample: refresh A is issued first and its response is the
one-record list; refresh B is issued later and its response is the empty
list. The response of B resolves first, then the response of A. The code
applies each response at resolution time with no generation token, so the
final Snapshot is the result of A (the earlier-issued call), not of B —
contradicting the claim that the final Snapshot equals the later refresh
with stale responses discarded. -/
theorem c1_counterexample :
    runSync [] [.refreshResolved (.success (some [])),
                .refreshResolved
                  (.success (some [⟨1, "A", "https://a.test", 7, 10⟩]))]
      = [⟨1, "A", "https://a.test", 7, 10⟩] ∧
    ([⟨1, "A", "https://a.test", 7, 10⟩] : List Record) ≠ [] := by
  exact ⟨rfl, by decide⟩

/-- C1 amended: there is no generation token; the final Snapshot equals
the result of whichever successful refresh response resolves last,
regardless of issue order — an earlier-issued refresh resolving last
overwrites a later-issued one. -/
theorem c1_last_resolved_response_wins (snap : List Record)
    (evs : List SyncEvent) (d : List Record) :
    runSync snap (evs ++ [.refreshResolved (.success (some d))]) = d := by
  simp [runSync, List.foldl_append, syncStep, fetchBookmarks]

/-- C3 counterexample: the Identity signs out while a refresh is in
flight; sign-out clears the Snapshot, but when the in-flight refresh
resolves its result is applied anyway (no generation check), so the final
Snapshot is the one-record list, not the empty sequence the claim
requires. -/
theorem c3_counterexample :
    runSync [⟨1, "A", "https://a.test", 7, 10⟩]
        [.authChange none,
         .refreshResolved (.success (some [⟨1, "A", "https://a.test", 7, 10⟩]))]
      = [⟨1, "A", "https://a.test", 7, 10⟩] ∧
    ([⟨1, "A", "https://a.test", 7, 10⟩] : List Record) ≠ [] := by
  exact ⟨rfl, by decide⟩

/-- C3 amended: when the Identity becomes absent the Snapshot is cleared
at that moment, but an in-flight refresh whose response resolves
afterwards is still applied: the final Snapshot equals that response, not
the empty sequence. -/
theorem c3_signout_clears_then_late_refresh_applies (snap d : List Record) :
    runSync snap [.authChange none] = [] ∧
    runSync snap [.authChange none, .refreshResolved (.success (some d))] = d :=
  ⟨rfl, rfl⟩

/-- C2: starting from a Snapshot satisfying the invariant, any
interleaving of fold operations — sign-out clears, refresh replacement,
INSERT-event application, DELETE-event application — preserves it, as
does the optimistic removal of `handleDelete` (including its corrective
refresh on failure): the result has no two records with the same id and
is sorted by `created_at` descending. Query responses are assumed to
satisfy the invariant (backend primary keys and the descending order
clause); no fold ever appends a record whose id is already present, since
every fold is either a wholesale replacement by such a response or a
filter of the existing Snapshot. -/
theorem c2_folds_preserve_invariant (snap : List Record)
    (evs : List SyncEvent) (id : Nat) (outcome : DeleteOutcome)
    (resp : FetchResult)
    (h0 : Inv snap) (hevs : ∀ e ∈ evs, respOk e)
    (hresp : respOk (.refreshResolved resp)) :
    Inv (runSync snap evs) ∧ Inv (handleDelete snap id outcome resp).1 := by
  refine ⟨inv_runSync evs snap h0 hevs, ?_⟩
  cases outcome with
  | success => exact inv_filter snap _ h0
  | failure e =>
      cases resp with
      | failure e2 => exact inv_filter snap _ h0
      | success d => exact hresp

/-- C2 witness: a concrete run — delete of id 1, then an INSERT event
whose triggered query returns two records — preserves the invariant, and
so does a concrete optimistic delete. -/
theorem c2_witness :
    Inv (runSync
          [⟨2, "B", "https://b.test", 7, 20⟩, ⟨1, "A", "https://a.test", 7, 10⟩]
          [.deleteEvent ⟨1⟩,
           .insertEvent ⟨⟨3, "C", "https://c.test", 7, 30⟩⟩
             (.success (some [⟨3, "C", "https://c.test", 7, 30⟩,
                              ⟨2, "B", "https://b.test", 7, 20⟩]))]) ∧
    Inv (handleDelete
          [⟨2, "B", "https://b.test", 7, 20⟩, ⟨1, "A", "https://a.test", 7, 10⟩]
          1 .success (.success (some []))).1 :=
  c2_folds_preserve_invariant
    [⟨2, "B", "https://b.test", 7, 20⟩, ⟨1, "A", "https://a.test", 7, 10⟩]
    [.deleteEvent ⟨1⟩,
     .insertEvent ⟨⟨3, "C", "https://c.test", 7, 30⟩⟩
       (.success (some [⟨3, "C", "https://c.test", 7, 30⟩,
                        ⟨2, "B", "https://b.test", 7, 20⟩]))]
    1 .success (.success (some []))
    (by decide) (by decide) (by decide)

/-- C4 counterexample: an INSERT event arrives for the record with id 1,
which is already present in the Snapshot. The claim requires the Snapshot
to be unchanged, but the handler ignores both the payload and the prior
Snapshot and replaces it with the query response — here a response that
lags the local Snapshot (the row with id 2 was removed remotely in the
meantime), so the result differs from the prior Snapshot. -/
theorem c4_counterexample :
    (⟨1, "A", "https://a.test", 7, 10⟩ : Record).id ∈
      ([⟨1, "A", "https://a.test", 7, 10⟩,
        ⟨2, "B", "https://b.test", 7, 5⟩] : List Record).map Record.id ∧
    onInsertEvent ⟨⟨1, "A", "https://a.test", 7, 10⟩⟩
        [⟨1, "A", "https://a.test", 7, 10⟩, ⟨2, "B", "https://b.test", 7, 5⟩]
        (.success (some [⟨1, "A", "https://a.test", 7, 10⟩]))
      ≠ [⟨1, "A", "https://a.test", 7, 10⟩, ⟨2, "B", "https://b.test", 7, 5⟩] := by
  constructor <;> decide

/-- C4 amended: the INSERT handler does not perform a local insert — it
replaces the Snapshot with the backend query response. When that response
equals the idempotent insert of r into the Snapshot described by the
spec, the handler produces exactly that insert; applying the handler
twice against the same response equals applying it once; and whenever the
ids of the Snapshot are duplicate-free the result carries exactly one
entry with id r.id. -/
theorem c4_insert_fold_is_query_replacement (p1 p2 : InsertPayload)
    (r : Record) (snap : List Record)
    (h : (snap.map Record.id).Nodup) :
    onInsertEvent p1 snap (.success (some (applyCreatedSpec r snap)))
        = applyCreatedSpec r snap ∧
    onInsertEvent p2
        (onInsertEvent p1 snap (.success (some (applyCreatedSpec r snap))))
        (.success (some (applyCreatedSpec r snap)))
      = onInsertEvent p1 snap (.success (some (applyCreatedSpec r snap))) ∧
    ((onInsertEvent p1 snap
        (.success (some (applyCreatedSpec r snap)))).filter
          (fun b => b.id == r.id)).length = 1 := by
  refine ⟨rfl, rfl, ?_⟩
  show ((applyCreatedSpec r snap).filter (fun b => b.id == r.id)).length = 1
  by_cases hmem : snap.any (fun b => b.id == r.id)
  · rw [applyCreatedSpec, if_pos hmem]
    rcases List.any_eq_true.mp hmem with ⟨b, hb, hid⟩
    exact filter_id_length_eq_one r.id snap h
      (List.mem_map.mpr ⟨b, hb, by simpa using hid⟩)
  · rw [applyCreatedSpec, if_neg hmem]
    have hzero : snap.countP (fun b => b.id == r.id) = 0 := by
      rw [List.countP_eq_zero]
      intro b hb
      exact fun hc => hmem (List.any_eq_true.mpr ⟨b, hb, hc⟩)
    rw [← List.countP_eq_length_filter,
        (insertDesc_perm r snap).countP_eq, List.countP_cons, hzero]
    simp

/-- C4 witness: concrete instance — the event for the fresh record with
id 2 against a one-record Snapshot, the query response being the
descending insert of that record. -/
theorem c4_witness :
    onInsertEvent ⟨⟨2, "B", "https://b.test", 7, 20⟩⟩
        [⟨1, "A", "https://a.test", 7, 10⟩]
        (.success (some (applyCreatedSpec ⟨2, "B", "https://b.test", 7, 20⟩
          [⟨1, "A", "https://a.test", 7, 10⟩])))
      = applyCreatedSpec ⟨2, "B", "https://b.test", 7, 20⟩
          [⟨1, "A", "https://a.test", 7, 10⟩] ∧
    onInsertEvent ⟨⟨2, "B", "https://b.test", 7, 20⟩⟩
        (onInsertEvent ⟨⟨2, "B", "https://b.test", 7, 20⟩⟩
          [⟨1, "A", "https://a.test", 7, 10⟩]
          (.success (some (applyCreatedSpec ⟨2, "B", "https://b.test", 7, 20⟩
            [⟨1, "A", "https://a.test", 7, 10⟩]))))
        (.success (some (applyCreatedSpec ⟨2, "B", "https://b.test", 7, 20⟩
          [⟨1, "A", "https://a.test", 7, 10⟩])))
      = onInsertEvent ⟨⟨2, "B", "https://b.test", 7, 20⟩⟩
          [⟨1, "A", "https://a.test", 7, 10⟩]
          (.success (some (applyCreatedSpec ⟨2, "B", "https://b.test", 7, 20⟩
            [⟨1, "A", "https://a.test", 7, 10⟩]))) ∧
    ((onInsertEvent ⟨⟨2, "B", "https://b.test", 7, 20⟩⟩
        [⟨1, "A", "https://a.test", 7, 10⟩]
        (.success (some (applyCreatedSpec ⟨2, "B", "https://b.test", 7, 20⟩
          [⟨1, "A", "https://a.test", 7, 10⟩])))).filter
        (fun b => b.id == (⟨2, "B", "https://b.test", 7, 20⟩ : Record).id)).length
      = 1 :=
  c4_insert_fold_is_query_replacement
    ⟨⟨2, "B", "https://b.test", 7, 20⟩⟩ ⟨⟨2, "B", "https://b.test", 7, 20⟩⟩
    ⟨2, "B", "https://b.test", 7, 20⟩ [⟨1, "A", "https://a.test", 7, 10⟩]
    (by decide)

/-- C7: when the insert fails, the error is reported and both form inputs
are left exactly as they were; they are cleared only on success. -/
theorem c7_create_failure_preserves_inputs (user : Identity)
    (form : FormState) (e : SupabaseError) (snap : List Record)
    (h1 : jsTrim form.title ≠ "") (h2 : jsTrim form.url ≠ "") :
    (handleAddBookmark user form (.failure e) snap).1 = form ∧
    (handleAddBookmark user form (.failure e) snap).2.2.1 = some e ∧
    (handleAddBookmark user form .success snap).1 = ⟨"", ""⟩ := by
  simp [handleAddBookmark, h1, h2]

/-- C7 witness: concrete failing insert with non-empty trimmed inputs. -/
theorem c7_witness :
    (handleAddBookmark ⟨7, "u@x.test"⟩ ⟨"Google", "https://g.test"⟩
        (.failure ⟨"boom"⟩) []).1 = ⟨"Google", "https://g.test"⟩ ∧
    (handleAddBookmark ⟨7, "u@x.test"⟩ ⟨"Google", "https://g.test"⟩
        (.failure ⟨"boom"⟩) []).2.2.1 = some ⟨"boom"⟩ ∧
    (handleAddBookmark ⟨7, "u@x.test"⟩ ⟨"Google", "https://g.test"⟩
        .success []).1 = ⟨"", ""⟩ :=
  c7_create_failure_preserves_inputs ⟨7, "u@x.test"⟩
    ⟨"Google", "https://g.test"⟩ ⟨"boom"⟩ [] (by decide) (by decide)

/-- C8: if either trimmed input is empty, no insert is issued and the
form inputs and Snapshot are returned unchanged; when both are non-empty
the issued insert carries the trimmed title, the trimmed url and the id
of the current Identity as owner; and in every case the handler leaves
the Snapshot untouched. The handler is reachable only with an Identity
present (the form renders only in the signed-in view). -/
theorem c8_create_preconditions_and_owner_tag (user : Identity)
    (form : FormState) (outcome : InsertOutcome) (snap : List Record) :
    ((jsTrim form.title = "" ∨ jsTrim form.url = "") →
      handleAddBookmark user form outcome snap = (form, none, none, snap)) ∧
    (jsTrim form.title ≠ "" → jsTrim form.url ≠ "" →
      (handleAddBookmark user form outcome snap).2.1
        = some ⟨jsTrim form.title, jsTrim form.url, user.id⟩) ∧
    (handleAddBookmark user form outcome snap).2.2.2 = snap := by
  refine ⟨?_, ?_, ?_⟩
  · rintro (h | h) <;> simp [handleAddBookmark, h]
  · intro h1 h2
    cases outcome <;> simp [handleAddBookmark, h1, h2]
  · by_cases h1 : jsTrim form.title = ""
    · simp [handleAddBookmark, h1]
    · by_cases h2 : jsTrim form.url = ""
      · simp [handleAddBookmark, h2]
      · cases outcome <;> simp [handleAddBookmark, h1, h2]

/-- C8 witness: an empty title issues nothing and changes nothing; with
both inputs non-empty the request carries the trimmed values and the
owner id 7; the Snapshot is untouched. -/
theorem c8_witness :
    handleAddBookmark ⟨7, "u@x.test"⟩ ⟨"", "https://a.test"⟩ .success []
      = (⟨"", "https://a.test"⟩, none, none, []) ∧
    (handleAddBookmark ⟨7, "u@x.test"⟩ ⟨"Google", "https://g.test"⟩
        .success []).2.1
      = some ⟨jsTrim "Google", jsTrim "https://g.test", 7⟩ ∧
    (handleAddBookmark ⟨7, "u@x.test"⟩ ⟨"Google", "https://g.test"⟩
        .success []).2.2.2 = [] :=
  ⟨(c8_create_preconditions_and_owner_tag ⟨7, "u@x.test"⟩
      ⟨"", "https://a.test"⟩ .success []).1 (Or.inl (by decide)),
   (c8_create_preconditions_and_owner_tag ⟨7, "u@x.test"⟩
      ⟨"Google", "https://g.test"⟩ .success []).2.1 (by decide) (by decide),
   (c8_create_preconditions_and_owner_tag ⟨7, "u@x.test"⟩
      ⟨"Google", "https://g.test"⟩ .success []).2.2⟩

end SmartBookmark
